import Mathlib

/-!
Verification of the generic streaming client core of
`client/genericclient/stream.go` (kitex generic client, streaming path).

The Go source is shallowly embedded:

* `serviceinfo.StreamingMode` and the generic method-info keys become
  inductive types, faithful to the constants used by the source.
* The schema-absent streaming-mode registry (`modeMap *sync.Map`, used
  via `LoadOrStore`/`Load`) becomes an association list with an
  insert-if-absent operation; the source uses it single-threaded per
  logical step, so a sequential list model is adequate.
* The `svcInfo.GenericMethod` hook installed by
  `NewStreamingClientWithServiceInfo` becomes `genericMethodHook`.
* The raw stream (`streaming.Stream`, an external collaborator whose
  code is outside this file's package) is modelled from the spec as a
  state machine recording a trace of successful operations, with an
  oracle (`StreamBehavior`) deciding the outcome of each transport call.
* The three streaming factories and the three deprecated handle types
  are translated operation by operation, threading the stream state and
  a `World` that additionally counts stream-open attempts.
-/

set_option autoImplicit false

namespace KitexGeneric

/-- `serviceinfo.StreamingMode`: the enumerated streaming modes of kitex
(`StreamingNone`, `StreamingUnary`, `StreamingClient`, `StreamingServer`,
`StreamingBidirectional`). -/
inductive StreamingMode where
  | StreamingNone
  | StreamingUnary
  | StreamingClient
  | StreamingServer
  | StreamingBidirectional
  deriving DecidableEq, Repr

/-- The keys of `svcInfo.Methods` used by the generic streaming path:
`serviceinfo.GenericMethod`, `serviceinfo.GenericClientStreamingMethod`,
`serviceinfo.GenericServerStreamingMethod`,
`serviceinfo.GenericBidirectionalStreamingMethod`. Each key names one
descriptor slot of the generic service info. -/
inductive MethodKey where
  | GenericMethod
  | GenericClientStreamingMethod
  | GenericServerStreamingMethod
  | GenericBidirectionalStreamingMethod
  deriving DecidableEq, Repr

/-- `getGenericStreamingMethodInfoKey` (stream.go lines 102-113): maps a
streaming mode to the method-info key of the matching descriptor slot;
every non-streaming mode falls to the default `GenericMethod` slot. -/
def getGenericStreamingMethodInfoKey (streamingMode : StreamingMode) : MethodKey :=
  match streamingMode with
  | .StreamingClient => .GenericClientStreamingMethod
  | .StreamingServer => .GenericServerStreamingMethod
  | .StreamingBidirectional => .GenericBidirectionalStreamingMethod
  | _ => .GenericMethod

/-- The schema-absent streaming-mode registry: the `modeMap *sync.Map`
of `genericServiceClient`, holding method name to recorded mode. -/
abbrev ModeMap := List (String × StreamingMode)

namespace ModeMap

/-- `sync.Map.Load`: the recorded mode of a method name, if any. -/
def load (mp : ModeMap) (name : String) : Option StreamingMode :=
  match mp with
  | [] => none
  | (k, v) :: rest => if k = name then some v else load rest name

/-- `sync.Map.LoadOrStore`: inserts `mode` under `name` only when `name`
is absent; an already-present entry is left untouched. -/
def loadOrStore (mp : ModeMap) (name : String) (mode : StreamingMode) : ModeMap :=
  match mp.load name with
  | some _ => mp
  | none => mp ++ [(name, mode)]

end ModeMap

/-- The schema-side view of a method, as returned by `g.GetMethod`: its
declared streaming mode and oneway flag (fields `StreamingMode` and
`Oneway` of the descriptor). -/
structure SchemaMethod where
  streamingMode : StreamingMode
  oneway : Bool
  deriving DecidableEq, Repr

/-- The method info returned by the `svcInfo.GenericMethod` hook: either
a descriptor slot returned directly (`svcInfo.Methods[key]`), or, on the
schema-present success path, that slot wrapped in a `methodInfo` value
carrying the schema's oneway flag. -/
inductive ResolvedInfo where
  | plain (key : MethodKey)
  | wrapped (key : MethodKey) (oneway : Bool)
  deriving DecidableEq, Repr

/-- The `svcInfo.GenericMethod` hook installed at stream.go lines 79-97.
`hasIDL` is `generic.HasIDLInfo(g)`; `getMethod` models `g.GetMethod`
(`none` standing for a lookup error); `mp` is the registry captured by
the closure. Schema absent: a recorded mode selects the slot, otherwise
the default `GenericMethod` slot. Schema present: a failed lookup falls
back to the default slot; a successful one selects the slot of the
declared mode and wraps it with the oneway flag. -/
def genericMethodHook (hasIDL : Bool) (getMethod : String → Option SchemaMethod)
    (mp : ModeMap) (name : String) : ResolvedInfo :=
  if hasIDL = false then
    match mp.load name with
    | some mode => .plain (getGenericStreamingMethodInfoKey mode)
    | none => .plain .GenericMethod
  else
    match getMethod name with
    | none => .plain .GenericMethod
    | some n => .wrapped (getGenericStreamingMethodInfoKey n.streamingMode) n.oneway

/-- Errors surfaced by the streaming core. The two named errors are the
ones this file constructs itself (`errors.New("invalid generic client")`
and `fmt.Errorf("client not support streaming")`); `transport n` stands
for an opaque error propagated from the transport collaborator. -/
inductive Err where
  | invalidGenericClient
  | clientNotSupportStreaming
  | transport (code : Nat)
  deriving DecidableEq, Repr

/-- The Request Envelope `generic.Args`: the `Method` and `Request`
fields set by the handles before `SendMsg`. The request payload type is
opaque to this layer, hence the type parameter. -/
structure GenericArgs (α : Type) where
  Method : String
  Request : α
  deriving DecidableEq, Repr

/-- One successful operation on the raw stream, in trace order. -/
inductive StreamOp (α : Type) where
  | sendMsg (env : GenericArgs α)
  | closeSend
  | recvMsg
  deriving DecidableEq, Repr

/-- Observable state of the raw stream handed back by `getStream`:
the trace of successful operations plus a count of attempts of each
kind (an attempt is counted whether or not the transport reports an
error for it). -/
structure StreamState (α : Type) where
  trace : List (StreamOp α)
  sendCalls : Nat
  closeCalls : Nat
  recvCalls : Nat
  deriving DecidableEq, Repr

/-- A freshly opened raw stream: nothing sent, received or closed. -/
def StreamState.init {α : Type} : StreamState α := ⟨[], 0, 0, 0⟩

/-- Modelled from the spec: the raw stream primitive
(`streaming.Stream`, an external collaborator; spec section 6 gives it
`sendMessage(envelope) -> error`, `receiveMessage() -> envelope | error`,
`closeSend() -> error`). The behavior is an oracle fixing the outcome
of the n-th call of each kind; `recvOutcome` yields either an error or
the opaque success payload that `GetSuccess` extracts from the Result
Envelope. -/
structure StreamBehavior (α ρ : Type) where
  sendErr : Nat → Option Err
  closeErr : Nat → Option Err
  recvOutcome : Nat → Except Err ρ

namespace Stream

/-- `Stream.SendMsg(env)`: one send attempt; on transport success the
envelope is appended to the trace. -/
def sendMsg {α ρ : Type} (b : StreamBehavior α ρ) (st : StreamState α)
    (env : GenericArgs α) : Option Err × StreamState α :=
  match b.sendErr st.sendCalls with
  | some e => (some e, { st with sendCalls := st.sendCalls + 1 })
  | none => (none, { st with sendCalls := st.sendCalls + 1,
                             trace := st.trace ++ [StreamOp.sendMsg env] })

/-- `Stream.Close()`: signals end-of-send on the raw stream. -/
def close {α ρ : Type} (b : StreamBehavior α ρ) (st : StreamState α) :
    Option Err × StreamState α :=
  match b.closeErr st.closeCalls with
  | some e => (some e, { st with closeCalls := st.closeCalls + 1 })
  | none => (none, { st with closeCalls := st.closeCalls + 1,
                             trace := st.trace ++ [StreamOp.closeSend] })

/-- `Stream.RecvMsg(result)` followed by `result.GetSuccess()`: one read
attempt for a Result Envelope; on success yields its opaque payload. -/
def recvMsg {α ρ : Type} (b : StreamBehavior α ρ) (st : StreamState α) :
    Except Err ρ × StreamState α :=
  match b.recvOutcome st.recvCalls with
  | .error e => (.error e, { st with recvCalls := st.recvCalls + 1 })
  | .ok p => (.ok p, { st with recvCalls := st.recvCalls + 1,
                               trace := st.trace ++ [StreamOp.recvMsg] })

end Stream

/-- The `genericServiceClient` struct, restricted to the fields the
streaming path reads: `hasIDL` is `generic.HasIDLInfo(g)`, `getMethod`
models `g.GetMethod`, `modeMap` is the registry (present exactly when no
IDL info is available, per the constructor), and `kSupportsStreaming`
records whether `kClient` implements `client.Streaming` (checked by the
type assertion in `getStream`). -/
structure GenericServiceClient where
  hasIDL : Bool
  getMethod : String → Option SchemaMethod
  modeMap : Option ModeMap
  kSupportsStreaming : Bool

/-- `svcInfo.MethodInfo(method)` on a generic streaming client: the
installed `GenericMethod` hook applied to the client's current registry
(the hook's closure reads the live `modeMap`). -/
def GenericServiceClient.methodInfo (c : GenericServiceClient) (name : String) :
    ResolvedInfo :=
  genericMethodHook c.hasIDL c.getMethod (c.modeMap.getD []) name

/-- The `Client` value handed to the factories: either an actual
`*genericServiceClient`, or any other implementation, for which the
factories' checked type assertion fails. -/
inductive ClientI where
  | generic (c : GenericServiceClient)
  | notGeneric

/-- The `if gCli.modeMap != nil { gCli.modeMap.LoadOrStore(method, mode) }`
step shared by the three factories. -/
def recordMode (g : GenericServiceClient) (method : String) (mode : StreamingMode) :
    GenericServiceClient :=
  match g.modeMap with
  | some mp => { g with modeMap := some (mp.loadOrStore method mode) }
  | none => g

/-- Oracle for the transport collaborator: `openErr n` is the outcome of
the n-th `streamClient.Stream(...)` call, and `stream` drives the raw
stream the scenario obtains. -/
structure TransportBehavior (α ρ : Type) where
  openErr : Nat → Option Err
  stream : StreamBehavior α ρ

/-- Transport-visible state threaded through a scenario: how many times
a stream open was attempted, and the state of the raw stream the
scenario works on. -/
structure World (α : Type) where
  openCalls : Nat
  st : StreamState α
  deriving DecidableEq, Repr

/-- A world in which no transport call has happened yet. -/
def World.init {α : Type} : World α := ⟨0, StreamState.init⟩

/-- `getStream` (stream.go lines 229-241): requires the underlying
`kClient` to implement `client.Streaming` (else the error
`client not support streaming`), then issues the stream-open call,
propagating its error unchanged. A successful open yields the raw
stream, whose state lives in the world. -/
def getStream {α ρ : Type} (tb : TransportBehavior α ρ) (gCli : GenericServiceClient)
    (w : World α) : Except Err Unit × World α :=
  if gCli.kSupportsStreaming = false then
    (.error Err.clientNotSupportStreaming, w)
  else
    match tb.openErr w.openCalls with
    | some e => (.error e, { w with openCalls := w.openCalls + 1 })
    | none => (.ok (), { w with openCalls := w.openCalls + 1 })

/-- `deprecatedClientStreamingClient`: wraps the raw stream (whose state
lives in the world) together with the method name and the resolved
method info. -/
structure DeprecatedClientStreamingClient where
  method : String
  methodInfo : ResolvedInfo
  deriving DecidableEq, Repr

/-- `deprecatedServerStreamingClient`: wraps the raw stream and the
resolved method info only (no method-name field in the source). -/
structure DeprecatedServerStreamingClient where
  methodInfo : ResolvedInfo
  deriving DecidableEq, Repr

/-- `deprecatedBidirectionalStreamingClient`: raw stream, method name
and resolved method info. -/
structure DeprecatedBidirectionalStreamingClient where
  method : String
  methodInfo : ResolvedInfo
  deriving DecidableEq, Repr

/-- `NewClientStreaming` (stream.go lines 121-134): checked cast of the
client (failure yields `invalid generic client`); insert-if-absent of
`StreamingClient` into the registry when one exists; stream acquisition;
on success the handle carrying the method name and
`svcInfo.MethodInfo(method)`. Returns the result together with the
updated client and world. -/
def NewClientStreaming {α ρ : Type} (tb : TransportBehavior α ρ) (genericCli : ClientI)
    (method : String) (w : World α) :
    Except Err DeprecatedClientStreamingClient × ClientI × World α :=
  match genericCli with
  | .notGeneric => (.error Err.invalidGenericClient, genericCli, w)
  | .generic gCli₀ =>
    let gCli := recordMode gCli₀ method StreamingMode.StreamingClient
    match getStream tb gCli w with
    | (.error e, w') => (.error e, .generic gCli, w')
    | (.ok _, w') =>
      (.ok ⟨method, gCli.methodInfo method⟩, .generic gCli, w')

/-- `deprecatedClientStreamingClient.Send` (stream.go lines 136-141):
builds `generic.Args` with `Method = cs.method`, `Request = req` and
writes it with `SendMsg`. -/
def DeprecatedClientStreamingClient.Send {α ρ : Type}
    (cs : DeprecatedClientStreamingClient) (b : StreamBehavior α ρ)
    (st : StreamState α) (req : α) : Option Err × StreamState α :=
  Stream.sendMsg b st ⟨cs.method, req⟩

/-- `deprecatedClientStreamingClient.CloseAndRecv` (stream.go lines
143-152): first `Close` (end-of-send); a close error returns at once;
otherwise one `RecvMsg` whose success payload is returned. -/
def DeprecatedClientStreamingClient.CloseAndRecv {α ρ : Type}
    (_cs : DeprecatedClientStreamingClient) (b : StreamBehavior α ρ)
    (st : StreamState α) : Except Err ρ × StreamState α :=
  match Stream.close b st with
  | (some e, st') => (.error e, st')
  | (none, st') => Stream.recvMsg b st'

/-- `NewServerStreaming` (stream.go lines 159-183): checked cast;
insert-if-absent of `StreamingServer`; stream acquisition; then,
before the handle is returned, one `SendMsg` of the Request Envelope
`{Method = method, Request = req}` followed by `Close` (end-of-send),
each propagating its error (and aborting the construction) on
failure. -/
def NewServerStreaming {α ρ : Type} (tb : TransportBehavior α ρ) (genericCli : ClientI)
    (method : String) (req : α) (w : World α) :
    Except Err DeprecatedServerStreamingClient × ClientI × World α :=
  match genericCli with
  | .notGeneric => (.error Err.invalidGenericClient, genericCli, w)
  | .generic gCli₀ =>
    let gCli := recordMode gCli₀ method StreamingMode.StreamingServer
    match getStream tb gCli w with
    | (.error e, w') => (.error e, .generic gCli, w')
    | (.ok _, w') =>
      let mtInfo := gCli.methodInfo method
      let ss : DeprecatedServerStreamingClient := ⟨mtInfo⟩
      match Stream.sendMsg tb.stream w'.st ⟨method, req⟩ with
      | (some e, st') => (.error e, .generic gCli, { w' with st := st' })
      | (none, st') =>
        match Stream.close tb.stream st' with
        | (some e, st'') => (.error e, .generic gCli, { w' with st := st'' })
        | (none, st'') => (.ok ss, .generic gCli, { w' with st := st'' })

/-- `deprecatedServerStreamingClient.Recv` (stream.go lines 185-191):
one `RecvMsg` of a Result Envelope, returning its success payload. -/
def DeprecatedServerStreamingClient.Recv {α ρ : Type}
    (_ss : DeprecatedServerStreamingClient) (b : StreamBehavior α ρ)
    (st : StreamState α) : Except Err ρ × StreamState α :=
  Stream.recvMsg b st

/-- `NewBidirectionalStreaming` (stream.go lines 199-212): checked cast;
insert-if-absent of `StreamingBidirectional`; stream acquisition; handle
creation. -/
def NewBidirectionalStreaming {α ρ : Type} (tb : TransportBehavior α ρ)
    (genericCli : ClientI) (method : String) (w : World α) :
    Except Err DeprecatedBidirectionalStreamingClient × ClientI × World α :=
  match genericCli with
  | .notGeneric => (.error Err.invalidGenericClient, genericCli, w)
  | .generic gCli₀ =>
    let gCli := recordMode gCli₀ method StreamingMode.StreamingBidirectional
    match getStream tb gCli w with
    | (.error e, w') => (.error e, .generic gCli, w')
    | (.ok _, w') =>
      (.ok ⟨method, gCli.methodInfo method⟩, .generic gCli, w')

/-- `deprecatedBidirectionalStreamingClient.Send` (stream.go lines
214-218): envelope `{Method = bs.method, Request = req}` via
`SendMsg`. -/
def DeprecatedBidirectionalStreamingClient.Send {α ρ : Type}
    (bs : DeprecatedBidirectionalStreamingClient) (b : StreamBehavior α ρ)
    (st : StreamState α) (req : α) : Option Err × StreamState α :=
  Stream.sendMsg b st ⟨bs.method, req⟩

/-- `deprecatedBidirectionalStreamingClient.Recv` (stream.go lines
221-227): one `RecvMsg`, returning the success payload. -/
def DeprecatedBidirectionalStreamingClient.Recv {α ρ : Type}
    (_bs : DeprecatedBidirectionalStreamingClient) (b : StreamBehavior α ρ)
    (st : StreamState α) : Except Err ρ × StreamState α :=
  Stream.recvMsg b st

/-- Outcome of `NewStreamingClientWithServiceInfo` (stream.go lines
56-100). `panicked` models a Go runtime panic: the construction performs
the unchecked interface assertion `kc.(client.Streaming)` at line 73,
which panics when the client built by the external `client.NewClient`
does not implement `client.Streaming`. -/
inductive ConstructorOutcome where
  | ok (cli : GenericServiceClient)
  | err (e : Err)
  | panicked

/-- `NewStreamingClientWithServiceInfo` (stream.go lines 56-100).
`newClientErr` models the outcome of the external `client.NewClient`
(spec section 6: `newClient -> client | error`), `kcStreaming` whether
the returned client implements `client.Streaming` (spec section 4.2
allows an underlying client without stream-acquisition support). A
`client.NewClient` error is returned unchanged; otherwise the struct
literal's unchecked assertion `kc.(client.Streaming)` panics when the
client lacks streaming support; otherwise the client is built with a
fresh registry exactly when `g` carries no IDL info, the finalizer is
installed, and the `GenericMethod` hook is attached. -/
def NewStreamingClientWithServiceInfo (newClientErr : Option Err) (kcStreaming : Bool)
    (hasIDL : Bool) (getMethod : String → Option SchemaMethod) : ConstructorOutcome :=
  match newClientErr with
  | some e => .err e
  | none =>
    if kcStreaming = false then
      .panicked
    else
      .ok { hasIDL := hasIDL
            getMethod := getMethod
            modeMap := if hasIDL then none else some []
            kSupportsStreaming := kcStreaming }

/-- One invocation of a streaming factory, used to state properties
over arbitrary sequences of calls against the same client. -/
inductive FactoryCall (α : Type) where
  | clientStreaming (method : String)
  | serverStreaming (method : String) (req : α)
  | bidirectionalStreaming (method : String)

/-- The method name a factory call targets. -/
def FactoryCall.method {α : Type} : FactoryCall α → String
  | .clientStreaming m => m
  | .serverStreaming m _ => m
  | .bidirectionalStreaming m => m

/-- The streaming mode the factory of this call records. -/
def FactoryCall.mode {α : Type} : FactoryCall α → StreamingMode
  | .clientStreaming _ => .StreamingClient
  | .serverStreaming _ _ => .StreamingServer
  | .bidirectionalStreaming _ => .StreamingBidirectional

/-- Runs one factory call, keeping only its effect on the client and
the transport world (the handle or error is dropped). -/
def runFactory {α ρ : Type} (tb : TransportBehavior α ρ) (call : FactoryCall α)
    (cli : ClientI) (w : World α) : ClientI × World α :=
  match call with
  | .clientStreaming m =>
    let r := NewClientStreaming tb cli m w
    (r.2.1, r.2.2)
  | .serverStreaming m req =>
    let r := NewServerStreaming tb cli m req w
    (r.2.1, r.2.2)
  | .bidirectionalStreaming m =>
    let r := NewBidirectionalStreaming tb cli m w
    (r.2.1, r.2.2)

/-- Runs a sequence of factory calls left to right. -/
def runFactories {α ρ : Type} (tb : TransportBehavior α ρ) (calls : List (FactoryCall α))
    (cli : ClientI) (w : World α) : ClientI × World α :=
  calls.foldl (fun acc call => runFactory tb call acc.1 acc.2) (cli, w)

/-- The client-streaming usage scenario of spec section 8 item 2:
`NewClientStreaming`, then `Send a`, `Send b`, `CloseAndRecv`, each
error short-circuiting as the caller would. Returns the caller-visible
result and the final transport world. -/
def clientStreamingScenario {α ρ : Type} (tb : TransportBehavior α ρ) (cli : ClientI)
    (m : String) (a b : α) (w : World α) : Except Err ρ × World α :=
  match NewClientStreaming tb cli m w with
  | (.error e, _, w') => (.error e, w')
  | (.ok cs, _, w') =>
    match cs.Send tb.stream w'.st a with
    | (some e, st') => (.error e, { w' with st := st' })
    | (none, st') =>
      match cs.Send tb.stream st' b with
      | (some e, st'') => (.error e, { w' with st := st'' })
      | (none, st'') =>
        let r := cs.CloseAndRecv tb.stream st''
        (r.1, { w' with st := r.2 })

/-! Helper lemmas about the registry and the factories' effect on it. -/

namespace ModeMap

theorem load_append_single_none {mp : ModeMap} {name : String}
    (h : mp.load name = none) (k : String) (v : StreamingMode) :
    (mp ++ [(k, v)]).load name = if k = name then some v else none := by
  induction mp with
  | nil => simp [load]
  | cons hd tl ih =>
    rcases hd with ⟨k', v'⟩
    by_cases hk : k' = name
    · simp [load, hk] at h
    · simp only [load, hk, if_false, List.cons_append] at h ⊢
      exact ih h

theorem load_append_single_some {mp : ModeMap} {name : String} {M : StreamingMode}
    (h : mp.load name = some M) (k : String) (v : StreamingMode) :
    (mp ++ [(k, v)]).load name = some M := by
  induction mp with
  | nil => simp [load] at h
  | cons hd tl ih =>
    rcases hd with ⟨k', v'⟩
    by_cases hk : k' = name
    · simp only [load, hk, if_true, List.cons_append] at h ⊢
      simpa using h
    · simp only [load, hk, if_false, List.cons_append] at h ⊢
      exact ih h

/-- A recorded binding survives any later `LoadOrStore`, whatever its
key and mode: first write wins. -/
theorem loadOrStore_load_pres {mp : ModeMap} {name : String} {M : StreamingMode}
    (h : mp.load name = some M) (k : String) (v : StreamingMode) :
    (mp.loadOrStore k v).load name = some M := by
  unfold loadOrStore
  cases hk : mp.load k
  · exact load_append_single_some h k v
  · exact h

/-- `LoadOrStore` on an absent name records the given mode. -/
theorem loadOrStore_load_self {mp : ModeMap} {name : String}
    (h : mp.load name = none) (v : StreamingMode) :
    (mp.loadOrStore name v).load name = some v := by
  unfold loadOrStore
  rw [h, load_append_single_none h name v]
  simp

/-- `LoadOrStore` under a different key leaves a name's binding as it
was. -/
theorem loadOrStore_load_other {mp : ModeMap} {k name : String} (hne : k ≠ name)
    (v : StreamingMode) : (mp.loadOrStore k v).load name = mp.load name := by
  unfold loadOrStore
  cases hk : mp.load k
  · cases hl : mp.load name
    · rw [load_append_single_none hl k v]
      simp [hne]
    · exact load_append_single_some hl k v
  · rfl

end ModeMap

theorem recordMode_modeMap {g : GenericServiceClient} {mp : ModeMap}
    (h : g.modeMap = some mp) (m : String) (mode : StreamingMode) :
    (recordMode g m mode).modeMap = some (mp.loadOrStore m mode) := by
  simp [recordMode, h]

theorem recordMode_hasIDL (g : GenericServiceClient) (m : String) (mode : StreamingMode) :
    (recordMode g m mode).hasIDL = g.hasIDL := by
  rcases hm : g.modeMap with _ | mp <;> simp [recordMode, hm]

theorem recordMode_kSupportsStreaming (g : GenericServiceClient) (m : String)
    (mode : StreamingMode) :
    (recordMode g m mode).kSupportsStreaming = g.kSupportsStreaming := by
  rcases hm : g.modeMap with _ | mp <;> simp [recordMode, hm]

theorem recordMode_getMethod (g : GenericServiceClient) (m : String)
    (mode : StreamingMode) : (recordMode g m mode).getMethod = g.getMethod := by
  rcases hm : g.modeMap with _ | mp <;> simp [recordMode, hm]

/-- Whatever the transport does, a factory call on a generic client
leaves behind exactly the client with that call's mode recorded
insert-if-absent. -/
theorem runFactory_client {α ρ : Type} (tb : TransportBehavior α ρ) (c : FactoryCall α)
    (g : GenericServiceClient) (w : World α) :
    (runFactory tb c (.generic g) w).1 =
      .generic (recordMode g (FactoryCall.method c) (FactoryCall.mode c)) := by
  cases c <;>
    simp only [runFactory, FactoryCall.method, FactoryCall.mode,
      NewClientStreaming, NewServerStreaming, NewBidirectionalStreaming] <;>
    (repeat' split) <;> rfl

theorem runFactories_cons {α ρ : Type} (tb : TransportBehavior α ρ) (c : FactoryCall α)
    (rest : List (FactoryCall α)) (cli : ClientI) (w : World α) :
    runFactories tb (c :: rest) cli w =
      runFactories tb rest (runFactory tb c cli w).1 (runFactory tb c cli w).2 := by
  rfl

theorem runFactories_append {α ρ : Type} (tb : TransportBehavior α ρ)
    (xs ys : List (FactoryCall α)) (cli : ClientI) (w : World α) :
    runFactories tb (xs ++ ys) cli w =
      runFactories tb ys (runFactories tb xs cli w).1 (runFactories tb xs cli w).2 := by
  simp [runFactories, List.foldl_append]

/-- A binding already recorded in the registry survives an arbitrary
sequence of further factory calls, and the schema flag and schema
lookup function of the client are untouched. -/
theorem runFactories_preserves_some {α ρ : Type} (tb : TransportBehavior α ρ)
    (calls : List (FactoryCall α)) :
    ∀ (g : GenericServiceClient) (w : World α) (mp : ModeMap) (m : String)
      (M : StreamingMode), g.modeMap = some mp → mp.load m = some M →
      ∃ g' mp', (runFactories tb calls (.generic g) w).1 = .generic g' ∧
        g'.modeMap = some mp' ∧ mp'.load m = some M ∧
        g'.hasIDL = g.hasIDL ∧ g'.getMethod = g.getMethod := by
  induction calls with
  | nil =>
    intro g w mp m M h1 h2
    exact ⟨g, mp, rfl, h1, h2, rfl, rfl⟩
  | cons c rest ih =>
    intro g w mp m M h1 h2
    rw [runFactories_cons, runFactory_client]
    obtain ⟨g', mp', hres, hmp', hload, hidl, hgm⟩ :=
      ih (recordMode g c.method c.mode) (runFactory tb c (.generic g) w).2
        (mp.loadOrStore c.method c.mode) m M
        (recordMode_modeMap h1 c.method c.mode)
        (ModeMap.loadOrStore_load_pres h2 c.method c.mode)
    exact ⟨g', mp', hres, hmp', hload,
      by rw [hidl, recordMode_hasIDL], by rw [hgm, recordMode_getMethod]⟩

/-- A name absent from the registry stays absent across factory calls
that target other method names. -/
theorem runFactories_preserves_none {α ρ : Type} (tb : TransportBehavior α ρ)
    (calls : List (FactoryCall α)) :
    ∀ (g : GenericServiceClient) (w : World α) (mp : ModeMap) (m : String),
      g.modeMap = some mp → mp.load m = none →
      (∀ c ∈ calls, FactoryCall.method c ≠ m) →
      ∃ g' mp', (runFactories tb calls (.generic g) w).1 = .generic g' ∧
        g'.modeMap = some mp' ∧ mp'.load m = none ∧
        g'.hasIDL = g.hasIDL ∧ g'.getMethod = g.getMethod := by
  induction calls with
  | nil =>
    intro g w mp m h1 h2 _
    exact ⟨g, mp, rfl, h1, h2, rfl, rfl⟩
  | cons c rest ih =>
    intro g w mp m h1 h2 hall
    rw [runFactories_cons, runFactory_client]
    have hne : FactoryCall.method c ≠ m := hall c (List.mem_cons_self c rest)
    obtain ⟨g', mp', hres, hmp', hload, hidl, hgm⟩ :=
      ih (recordMode g c.method c.mode) (runFactory tb c (.generic g) w).2
        (mp.loadOrStore c.method c.mode) m
        (recordMode_modeMap h1 c.method c.mode)
        (by rw [ModeMap.loadOrStore_load_other hne]; exact h2)
        (fun c' hc' => hall c' (List.mem_cons_of_mem c hc'))
    exact ⟨g', mp', hres, hmp', hload,
      by rw [hidl, recordMode_hasIDL], by rw [hgm, recordMode_getMethod]⟩

/-- C1: in the schema-absent registry, a streaming mode recorded for a
method name is never overwritten. Whatever factory calls for other
names precede, the first streaming call (of any shape, of mode `M`)
against a name `m` not yet recorded fixes `m`'s mode: after arbitrary
later factory calls — including ones for `m` through different shapes'
factories — the registry still maps `m` to `M` and schema-absent
resolution of `m` returns the descriptor slot of mode `M`. -/
theorem c1_registry_first_write_wins {α ρ : Type} (tb : TransportBehavior α ρ)
    (g : GenericServiceClient) (mp : ModeMap) (m : String) (M : StreamingMode)
    (w : World α) (pre post : List (FactoryCall α)) (c : FactoryCall α)
    (hIdl : g.hasIDL = false) (hmp : g.modeMap = some mp)
    (habsent : mp.load m = none)
    (hpre : ∀ c' ∈ pre, FactoryCall.method c' ≠ m)
    (hcm : FactoryCall.method c = m) (hcM : FactoryCall.mode c = M) :
    ∃ g' mp', (runFactories tb (pre ++ c :: post) (.generic g) w).1 = .generic g' ∧
      g'.modeMap = some mp' ∧ mp'.load m = some M ∧
      g'.methodInfo m = .plain (getGenericStreamingMethodInfoKey M) := by
  obtain ⟨g₁, mp₁, hres₁, hmp₁, hload₁, hidl₁, _⟩ :=
    runFactories_preserves_none tb pre g w mp m hmp habsent hpre
  rw [runFactories_append, hres₁, runFactories_cons, runFactory_client, hcm, hcM]
  obtain ⟨g', mp', hres', hmp', hload', hidl', _⟩ :=
    runFactories_preserves_some tb post (recordMode g₁ m M) _
      (mp₁.loadOrStore m M) m M (recordMode_modeMap hmp₁ m M)
      (ModeMap.loadOrStore_load_self hload₁ M)
  refine ⟨g', mp', hres', hmp', hload', ?_⟩
  have hidl0 : g'.hasIDL = false := by
    rw [hidl', recordMode_hasIDL, hidl₁, hIdl]
  simp [GenericServiceClient.methodInfo, genericMethodHook, hidl0, hmp', hload']

/-- A transport behavior in which every call succeeds and every read
yields payload `0`; used to instantiate witnesses. -/
def tbOk : TransportBehavior Nat Nat :=
  ⟨fun _ => none, ⟨fun _ => none, fun _ => none, fun _ => .ok 0⟩⟩

/-- A schema-absent generic client as the constructor builds it: no IDL
info, empty registry, underlying client supporting streaming. -/
def gNoIDL : GenericServiceClient :=
  ⟨false, fun _ => none, some [], true⟩

/-- Witness for C1: the mode `StreamingServer` recorded first for
`"Echo"` (after an unrelated call for `"Other"`) survives later client-
and bidirectional-streaming calls for `"Echo"`, and resolution selects
the server-streaming descriptor slot. -/
theorem c1_registry_first_write_wins_witness :
    ∃ g' mp',
      (runFactories tbOk
        ([FactoryCall.clientStreaming "Other"] ++
          FactoryCall.serverStreaming "Echo" 0 ::
            [FactoryCall.clientStreaming "Echo",
             FactoryCall.bidirectionalStreaming "Echo"])
        (.generic gNoIDL) World.init).1 = .generic g' ∧
      g'.modeMap = some mp' ∧ mp'.load "Echo" = some .StreamingServer ∧
      g'.methodInfo "Echo" =
        .plain (getGenericStreamingMethodInfoKey .StreamingServer) :=
  c1_registry_first_write_wins tbOk gNoIDL [] "Echo" .StreamingServer World.init
    [FactoryCall.clientStreaming "Other"]
    [FactoryCall.clientStreaming "Echo", FactoryCall.bidirectionalStreaming "Echo"]
    (FactoryCall.serverStreaming "Echo" 0) rfl rfl rfl
    (by
      intro c' hc'
      simp only [List.mem_singleton] at hc'
      subst hc'
      simp [FactoryCall.method])
    rfl rfl

/-- C5: method resolution. Schema absent: an unrecorded name resolves
to the default `GenericMethod` (unary) slot, a recorded mode selects
that mode's slot. Schema present: a failed schema lookup also falls
back to the default slot instead of erroring, while a successful lookup
selects the slot of the declared mode (wrapped with the schema's oneway
flag). The last conjunct records that the default slot is exactly the
slot of the non-streaming mode `StreamingNone`. -/
theorem c5_resolution_default_and_selected (name : String) :
    (∀ (c : GenericServiceClient) (mp : ModeMap), c.hasIDL = false →
      c.modeMap = some mp → mp.load name = none →
      c.methodInfo name = .plain .GenericMethod) ∧
    (∀ c : GenericServiceClient, c.hasIDL = true → c.getMethod name = none →
      c.methodInfo name = .plain .GenericMethod) ∧
    (∀ (c : GenericServiceClient) (mp : ModeMap) (M : StreamingMode),
      c.hasIDL = false → c.modeMap = some mp → mp.load name = some M →
      c.methodInfo name = .plain (getGenericStreamingMethodInfoKey M)) ∧
    (∀ (c : GenericServiceClient) (n : SchemaMethod), c.hasIDL = true →
      c.getMethod name = some n →
      c.methodInfo name =
        .wrapped (getGenericStreamingMethodInfoKey n.streamingMode) n.oneway) ∧
    getGenericStreamingMethodInfoKey .StreamingNone = .GenericMethod := by
  refine ⟨?_, ?_, ?_, ?_, rfl⟩
  · intro c mp hidl hmp hload
    simp [GenericServiceClient.methodInfo, genericMethodHook, hidl, hmp, hload]
  · intro c hidl hgm
    simp [GenericServiceClient.methodInfo, genericMethodHook, hidl, hgm]
  · intro c mp M hidl hmp hload
    simp [GenericServiceClient.methodInfo, genericMethodHook, hidl, hmp, hload]
  · intro c n hidl hgm
    simp [GenericServiceClient.methodInfo, genericMethodHook, hidl, hgm]

/-- A schema-bearing client whose schema lookup fails for every name. -/
def gIDLMiss : GenericServiceClient :=
  ⟨true, fun _ => none, none, true⟩

/-- A schema-bearing client declaring every method bidirectional and
oneway. -/
def gIDLBidi : GenericServiceClient :=
  ⟨true, fun _ => some ⟨.StreamingBidirectional, true⟩, none, true⟩

/-- A schema-absent client that has recorded client-streaming for
`"Echo"`. -/
def gRecorded : GenericServiceClient :=
  ⟨false, fun _ => none, some [("Echo", .StreamingClient)], true⟩

/-- Witness for C5 at concrete clients: unrecorded and lookup-miss
names resolve to the default slot; a recorded mode and a successful
schema lookup select their mode's slot. -/
theorem c5_resolution_default_and_selected_witness :
    gNoIDL.methodInfo "Echo" = .plain .GenericMethod ∧
    gIDLMiss.methodInfo "Echo" = .plain .GenericMethod ∧
    gRecorded.methodInfo "Echo" =
      .plain (getGenericStreamingMethodInfoKey .StreamingClient) ∧
    gIDLBidi.methodInfo "Echo" =
      .wrapped (getGenericStreamingMethodInfoKey .StreamingBidirectional) true :=
  ⟨(c5_resolution_default_and_selected "Echo").1 gNoIDL [] rfl rfl rfl,
   (c5_resolution_default_and_selected "Echo").2.1 gIDLMiss rfl rfl,
   (c5_resolution_default_and_selected "Echo").2.2.1 gRecorded
     [("Echo", .StreamingClient)] .StreamingClient rfl rfl (by decide),
   (c5_resolution_default_and_selected "Echo").2.2.2.1 gIDLBidi
     ⟨.StreamingBidirectional, true⟩ rfl rfl⟩

/-- C2: on a client-streaming handle obtained for method `m`, the
sequence `Send a; Send b; CloseAndRecv` against a transport that
accepts both sends, the close and the read, writes exactly the two
Request Envelopes `{m, a}` then `{m, b}` (in that order), signals
end-of-send, performs exactly one read of a Result Envelope, and hands
its opaque success payload back to the caller. The final world records
the full raw-stream trace and the counts: two send attempts, one close
attempt, one read attempt. -/
theorem c2_client_streaming_two_sends_one_recv {α ρ : Type}
    (tb : TransportBehavior α ρ) (g : GenericServiceClient) (m : String)
    (a b : α) (p : ρ)
    (hks : g.kSupportsStreaming = true)
    (hopen : tb.openErr 0 = none)
    (hs0 : tb.stream.sendErr 0 = none) (hs1 : tb.stream.sendErr 1 = none)
    (hc0 : tb.stream.closeErr 0 = none)
    (hr0 : tb.stream.recvOutcome 0 = .ok p) :
    clientStreamingScenario tb (.generic g) m a b World.init =
      (.ok p,
       ⟨1, ⟨[.sendMsg ⟨m, a⟩, .sendMsg ⟨m, b⟩, .closeSend, .recvMsg], 2, 1, 1⟩⟩) := by
  have hks' : (recordMode g m .StreamingClient).kSupportsStreaming = true := by
    rw [recordMode_kSupportsStreaming, hks]
  simp [clientStreamingScenario, NewClientStreaming, getStream, hks', hopen,
    DeprecatedClientStreamingClient.Send, DeprecatedClientStreamingClient.CloseAndRecv,
    Stream.sendMsg, Stream.close, Stream.recvMsg, World.init, StreamState.init,
    hs0, hs1, hc0, hr0]

/-- Witness for C2 at a concrete transport and client. -/
theorem c2_client_streaming_two_sends_one_recv_witness :
    clientStreamingScenario tbOk (.generic gNoIDL) "Echo" 10 20 World.init =
      (.ok 0,
       ⟨1, ⟨[.sendMsg ⟨"Echo", 10⟩, .sendMsg ⟨"Echo", 20⟩, .closeSend, .recvMsg],
            2, 1, 1⟩⟩) :=
  c2_client_streaming_two_sends_one_recv tbOk gNoIDL "Echo" 10 20 0
    rfl rfl rfl rfl rfl rfl

/-- C3: constructing a server-streaming handle for method `m` with
initial request `r` sends exactly one Request Envelope `{m, r}` and
then signals end-of-send, both already reflected in the stream state
the constructor returns (nothing else was sent or read); and a
subsequent `Recv` on that state performs exactly one read of a Result
Envelope and returns its opaque payload. -/
theorem c3_server_streaming_eager_send_close {α ρ : Type}
    (tb : TransportBehavior α ρ) (g : GenericServiceClient) (m : String)
    (r : α) (p : ρ)
    (hks : g.kSupportsStreaming = true) (hopen : tb.openErr 0 = none)
    (hs0 : tb.stream.sendErr 0 = none) (hc0 : tb.stream.closeErr 0 = none)
    (hr0 : tb.stream.recvOutcome 0 = .ok p) :
    NewServerStreaming tb (.generic g) m r World.init =
      (.ok ⟨(recordMode g m .StreamingServer).methodInfo m⟩,
       .generic (recordMode g m .StreamingServer),
       ⟨1, ⟨[.sendMsg ⟨m, r⟩, .closeSend], 1, 1, 0⟩⟩) ∧
    (∀ ss : DeprecatedServerStreamingClient,
      ss.Recv tb.stream ⟨[.sendMsg ⟨m, r⟩, .closeSend], 1, 1, 0⟩ =
        (.ok p, ⟨[.sendMsg ⟨m, r⟩, .closeSend, .recvMsg], 1, 1, 1⟩)) := by
  have hks' : (recordMode g m .StreamingServer).kSupportsStreaming = true := by
    rw [recordMode_kSupportsStreaming, hks]
  constructor
  · simp [NewServerStreaming, getStream, hks', hopen, Stream.sendMsg, Stream.close,
      World.init, StreamState.init, hs0, hc0]
  · intro ss
    simp [DeprecatedServerStreamingClient.Recv, Stream.recvMsg, hr0]

/-- Witness for C3 at a concrete transport and client. -/
theorem c3_server_streaming_eager_send_close_witness :
    NewServerStreaming tbOk (.generic gNoIDL) "Echo" 42 World.init =
      (.ok ⟨(recordMode gNoIDL "Echo" .StreamingServer).methodInfo "Echo"⟩,
       .generic (recordMode gNoIDL "Echo" .StreamingServer),
       ⟨1, ⟨[.sendMsg ⟨"Echo", 42⟩, .closeSend], 1, 1, 0⟩⟩) ∧
    (∀ ss : DeprecatedServerStreamingClient,
      ss.Recv tbOk.stream ⟨[.sendMsg ⟨"Echo", 42⟩, .closeSend], 1, 1, 0⟩ =
        (.ok 0, ⟨[.sendMsg ⟨"Echo", 42⟩, .closeSend, .recvMsg], 1, 1, 1⟩)) :=
  c3_server_streaming_eager_send_close tbOk gNoIDL "Echo" 42 0 rfl rfl rfl rfl rfl

/-- C4: `CloseAndRecv` first signals end-of-send. If that close fails,
its error is returned at once and the receive step is never attempted:
the returned stream state is the input state with only the close
attempt added (read count and trace untouched). Only when the close
succeeds does exactly one read happen, whose success payload is the
caller's result. -/
theorem c4_close_error_skips_recv {α ρ : Type} (b : StreamBehavior α ρ)
    (cs : DeprecatedClientStreamingClient) (st : StreamState α) :
    (∀ e, b.closeErr st.closeCalls = some e →
      cs.CloseAndRecv b st =
        ((.error e : Except Err ρ), { st with closeCalls := st.closeCalls + 1 })) ∧
    (b.closeErr st.closeCalls = none →
      (cs.CloseAndRecv b st : Except Err ρ × StreamState α).2.recvCalls =
          st.recvCalls + 1 ∧
      (∀ p, b.recvOutcome st.recvCalls = .ok p →
        (cs.CloseAndRecv b st : Except Err ρ × StreamState α).1 = .ok p)) := by
  constructor
  · intro e he
    simp [DeprecatedClientStreamingClient.CloseAndRecv, Stream.close, he]
  · intro hn
    have hcr : cs.CloseAndRecv b st =
        Stream.recvMsg b { st with closeCalls := st.closeCalls + 1,
                                   trace := st.trace ++ [StreamOp.closeSend] } := by
      simp [DeprecatedClientStreamingClient.CloseAndRecv, Stream.close, hn]
    constructor
    · rw [hcr]
      unfold Stream.recvMsg
      cases hro : b.recvOutcome st.recvCalls <;> simp [hro]
    · intro p hp
      rw [hcr]
      simp [Stream.recvMsg, hp]

/-- A behavior whose close always fails; used by the C4 witness. -/
def closeFailB : StreamBehavior Nat Nat :=
  ⟨fun _ => none, fun _ => some (.transport 9), fun _ => .ok 0⟩

/-- A client-streaming handle value used to exercise the handle
methods directly in witnesses. -/
def csEcho : DeprecatedClientStreamingClient :=
  ⟨"Echo", .plain .GenericClientStreamingMethod⟩

/-- Witness for C4: a failing close returns its error with no read
attempted; a succeeding close performs exactly one read and returns the
payload. -/
theorem c4_close_error_skips_recv_witness :
    (csEcho.CloseAndRecv closeFailB StreamState.init =
      ((.error (.transport 9) : Except Err Nat),
       { StreamState.init with closeCalls := 1 })) ∧
    ((csEcho.CloseAndRecv tbOk.stream StreamState.init :
        Except Err Nat × StreamState Nat).2.recvCalls = 1 ∧
     (csEcho.CloseAndRecv tbOk.stream StreamState.init :
        Except Err Nat × StreamState Nat).1 = .ok 0) :=
  ⟨(c4_close_error_skips_recv closeFailB csEcho StreamState.init).1
      (.transport 9) rfl,
   ((c4_close_error_skips_recv tbOk.stream csEcho StreamState.init).2 rfl).1,
   ((c4_close_error_skips_recv tbOk.stream csEcho StreamState.init).2 rfl).2 0 rfl⟩

/-- C6: each of the three streaming factories, invoked on a client
value that is not a `*genericServiceClient`, returns the
`invalid generic client` error and leaves both the client and the
transport world exactly as they were — no stream open is attempted and
nothing is sent. On a genuine generic client whose underlying client
supports streaming, a transport error from the stream-open call is
propagated unchanged by all three factories. -/
theorem c6_invalid_client_error_no_transport {α ρ : Type}
    (tb : TransportBehavior α ρ) (m : String) (r : α) (w : World α) :
    NewClientStreaming tb .notGeneric m w =
      (.error .invalidGenericClient, .notGeneric, w) ∧
    NewServerStreaming tb .notGeneric m r w =
      (.error .invalidGenericClient, .notGeneric, w) ∧
    NewBidirectionalStreaming tb .notGeneric m w =
      (.error .invalidGenericClient, .notGeneric, w) ∧
    (∀ (g : GenericServiceClient) (e : Err), g.kSupportsStreaming = true →
      tb.openErr w.openCalls = some e →
      (NewClientStreaming tb (.generic g) m w).1 = .error e ∧
      (NewServerStreaming tb (.generic g) m r w).1 = .error e ∧
      (NewBidirectionalStreaming tb (.generic g) m w).1 = .error e) := by
  refine ⟨rfl, rfl, rfl, ?_⟩
  intro g e hks hopen
  have hks' : ∀ mode, (recordMode g m mode).kSupportsStreaming = true := by
    intro mode
    rw [recordMode_kSupportsStreaming, hks]
  refine ⟨?_, ?_, ?_⟩ <;>
    simp [NewClientStreaming, NewServerStreaming, NewBidirectionalStreaming,
      getStream, hks', hopen]

/-- A transport whose stream-open call always fails. -/
def tbOpenFail : TransportBehavior Nat Nat :=
  ⟨fun _ => some (.transport 5),
   ⟨fun _ => none, fun _ => none, fun _ => .ok 0⟩⟩

/-- Witness for C6: the three factories reject a non-generic client
without touching the world, and propagate a concrete stream-open error
unchanged. -/
theorem c6_invalid_client_error_no_transport_witness :
    (NewClientStreaming tbOk .notGeneric "Echo" World.init =
      (.error .invalidGenericClient, .notGeneric, World.init) ∧
     NewServerStreaming tbOk .notGeneric "Echo" (3 : Nat) World.init =
      (.error .invalidGenericClient, .notGeneric, World.init) ∧
     NewBidirectionalStreaming tbOk .notGeneric "Echo" World.init =
      (.error .invalidGenericClient, .notGeneric, World.init)) ∧
    ((NewClientStreaming tbOpenFail (.generic gNoIDL) "Echo" World.init).1 =
        .error (.transport 5) ∧
     (NewServerStreaming tbOpenFail (.generic gNoIDL) "Echo" (3 : Nat)
        World.init).1 = .error (.transport 5) ∧
     (NewBidirectionalStreaming tbOpenFail (.generic gNoIDL) "Echo"
        World.init).1 = .error (.transport 5)) :=
  ⟨⟨(c6_invalid_client_error_no_transport tbOk "Echo" (3 : Nat) World.init).1,
    (c6_invalid_client_error_no_transport tbOk "Echo" (3 : Nat) World.init).2.1,
    (c6_invalid_client_error_no_transport tbOk "Echo" (3 : Nat) World.init).2.2.1⟩,
   (c6_invalid_client_error_no_transport tbOpenFail "Echo" (3 : Nat)
      World.init).2.2.2 gNoIDL (.transport 5) rfl rfl⟩

/-- A name's recorded mode governs every later schema-absent
resolution, whatever factory calls follow: helper shared by C10. -/
theorem recorded_mode_governs {α ρ : Type} (g : GenericServiceClient)
    (mp : ModeMap) (m : String) (M : StreamingMode)
    (hIdl : g.hasIDL = false) (hmp : g.modeMap = some mp)
    (habsent : mp.load m = none) :
    ∀ (tb2 : TransportBehavior α ρ) (post : List (FactoryCall α)) (w2 : World α),
      ∃ g' mp',
        (runFactories tb2 post (.generic (recordMode g m M)) w2).1 = .generic g' ∧
        g'.modeMap = some mp' ∧ mp'.load m = some M ∧
        g'.methodInfo m = .plain (getGenericStreamingMethodInfoKey M) := by
  intro tb2 post w2
  obtain ⟨g', mp', hres, hmp', hload, hidl', _⟩ :=
    runFactories_preserves_some tb2 post (recordMode g m M) w2
      (mp.loadOrStore m M) m M (recordMode_modeMap hmp m M)
      (ModeMap.loadOrStore_load_self habsent M)
  refine ⟨g', mp', hres, hmp', hload, ?_⟩
  have hidl0 : g'.hasIDL = false := by
    rw [hidl', recordMode_hasIDL, hIdl]
  simp [GenericServiceClient.methodInfo, genericMethodHook, hidl0, hmp', hload]

/-- C10: each factory records its variant's mode in the registry before
attempting to open the raw stream. Hence when stream acquisition fails,
the factory returns the transport error and no handle, yet the client
it leaves behind carries the mode durably: it resolves to that
variant's descriptor slot now and after any further factory calls. -/
theorem c10_mode_recorded_despite_open_failure {α ρ : Type}
    (tb : TransportBehavior α ρ) (g : GenericServiceClient) (mp : ModeMap)
    (m : String) (r : α) (w : World α) (e : Err)
    (hIdl : g.hasIDL = false) (hmp : g.modeMap = some mp)
    (habsent : mp.load m = none) (hks : g.kSupportsStreaming = true)
    (hopen : tb.openErr w.openCalls = some e) :
    (NewClientStreaming tb (.generic g) m w =
      (.error e, .generic (recordMode g m .StreamingClient),
       { w with openCalls := w.openCalls + 1 }) ∧
     ∀ (tb2 : TransportBehavior α ρ) (post : List (FactoryCall α)) (w2 : World α),
       ∃ g' mp', (runFactories tb2 post
           (.generic (recordMode g m .StreamingClient)) w2).1 = .generic g' ∧
         g'.modeMap = some mp' ∧ mp'.load m = some .StreamingClient ∧
         g'.methodInfo m =
           .plain (getGenericStreamingMethodInfoKey .StreamingClient)) ∧
    (NewServerStreaming tb (.generic g) m r w =
      (.error e, .generic (recordMode g m .StreamingServer),
       { w with openCalls := w.openCalls + 1 }) ∧
     ∀ (tb2 : TransportBehavior α ρ) (post : List (FactoryCall α)) (w2 : World α),
       ∃ g' mp', (runFactories tb2 post
           (.generic (recordMode g m .StreamingServer)) w2).1 = .generic g' ∧
         g'.modeMap = some mp' ∧ mp'.load m = some .StreamingServer ∧
         g'.methodInfo m =
           .plain (getGenericStreamingMethodInfoKey .StreamingServer)) ∧
    (NewBidirectionalStreaming tb (.generic g) m w =
      (.error e, .generic (recordMode g m .StreamingBidirectional),
       { w with openCalls := w.openCalls + 1 }) ∧
     ∀ (tb2 : TransportBehavior α ρ) (post : List (FactoryCall α)) (w2 : World α),
       ∃ g' mp', (runFactories tb2 post
           (.generic (recordMode g m .StreamingBidirectional)) w2).1 = .generic g' ∧
         g'.modeMap = some mp' ∧ mp'.load m = some .StreamingBidirectional ∧
         g'.methodInfo m =
           .plain (getGenericStreamingMethodInfoKey .StreamingBidirectional)) := by
  have hks' : ∀ mode, (recordMode g m mode).kSupportsStreaming = true := by
    intro mode
    rw [recordMode_kSupportsStreaming, hks]
  refine ⟨⟨?_, recorded_mode_governs g mp m _ hIdl hmp habsent⟩,
          ⟨?_, recorded_mode_governs g mp m _ hIdl hmp habsent⟩,
          ⟨?_, recorded_mode_governs g mp m _ hIdl hmp habsent⟩⟩ <;>
    simp [NewClientStreaming, NewServerStreaming, NewBidirectionalStreaming,
      getStream, hks', hopen]

/-- Witness for C10: a failed open still records the bidirectional mode
for `"Echo"` and that mode governs a later resolution. -/
theorem c10_mode_recorded_despite_open_failure_witness :
    NewBidirectionalStreaming tbOpenFail (.generic gNoIDL) "Echo" World.init =
      (.error (.transport 5),
       .generic (recordMode gNoIDL "Echo" .StreamingBidirectional),
       { World.init with openCalls := 1 }) ∧
    ∃ g' mp', (runFactories tbOk [FactoryCall.clientStreaming "Echo"]
        (.generic (recordMode gNoIDL "Echo" .StreamingBidirectional))
        World.init).1 = .generic g' ∧
      g'.modeMap = some mp' ∧ mp'.load "Echo" = some .StreamingBidirectional ∧
      g'.methodInfo "Echo" =
        .plain (getGenericStreamingMethodInfoKey .StreamingBidirectional) :=
  ⟨(c10_mode_recorded_despite_open_failure tbOpenFail gNoIDL [] "Echo" (3 : Nat)
      World.init (.transport 5) rfl rfl rfl rfl rfl).2.2.1,
   (c10_mode_recorded_despite_open_failure tbOpenFail gNoIDL [] "Echo" (3 : Nat)
      World.init (.transport 5) rfl rfl rfl rfl rfl).2.2.2 tbOk
      [FactoryCall.clientStreaming "Echo"] World.init⟩

/-- `SendMsg` extends the trace only by the very envelope it was given
(by nothing at all when the transport rejects the send). -/
theorem sendMsg_trace {α ρ : Type} (b : StreamBehavior α ρ) (st : StreamState α)
    (env : GenericArgs α) :
    ∃ t, (Stream.sendMsg b st env).2.trace = st.trace ++ t ∧
      ∀ env', StreamOp.sendMsg env' ∈ t → env' = env := by
  rcases h : b.sendErr st.sendCalls with _ | e <;>
    simp only [Stream.sendMsg, h]
  · refine ⟨[StreamOp.sendMsg env], by simp, ?_⟩
    intro env' henv
    simp only [List.mem_singleton] at henv
    injection henv
  · exact ⟨[], by simp, fun env' henv => absurd henv (List.not_mem_nil _)⟩

/-- `Close` never adds a Request Envelope to the trace. -/
theorem close_trace {α ρ : Type} (b : StreamBehavior α ρ) (st : StreamState α) :
    ∃ t, (Stream.close b st).2.trace = st.trace ++ t ∧
      ∀ env', StreamOp.sendMsg env' ∉ t := by
  rcases h : b.closeErr st.closeCalls with _ | e <;>
    simp only [Stream.close, h]
  · refine ⟨[StreamOp.closeSend], by simp, ?_⟩
    intro env' henv
    simp at henv
  · exact ⟨[], by simp, fun env' henv => absurd henv (List.not_mem_nil _)⟩

/-- `getStream` touches only the open counter, never the stream
state. -/
theorem getStream_st {α ρ : Type} (tb : TransportBehavior α ρ)
    (g : GenericServiceClient) (w : World α) : (getStream tb g w).2.st = w.st := by
  unfold getStream
  split
  · rfl
  · rcases h : tb.openErr w.openCalls with _ | e <;> simp [h]

/-- C7: every Request Envelope written to a raw stream carries as its
`Method` field the method name the handle was resolved for. Sends on a
client-streaming or bidirectional handle extend the trace only with
envelopes naming the handle's method; both factories stamp the handle
with exactly the method name they were called with; and server-
streaming construction extends the trace only with envelopes naming
its method argument. -/
theorem c7_envelope_method_matches {α ρ : Type} :
    (∀ (cs : DeprecatedClientStreamingClient) (b : StreamBehavior α ρ)
       (st : StreamState α) (req : α),
      ∃ t, (cs.Send b st req).2.trace = st.trace ++ t ∧
        ∀ env, StreamOp.sendMsg env ∈ t → env.Method = cs.method) ∧
    (∀ (bs : DeprecatedBidirectionalStreamingClient) (b : StreamBehavior α ρ)
       (st : StreamState α) (req : α),
      ∃ t, (bs.Send b st req).2.trace = st.trace ++ t ∧
        ∀ env, StreamOp.sendMsg env ∈ t → env.Method = bs.method) ∧
    (∀ (tb : TransportBehavior α ρ) (cli : ClientI) (m : String) (w : World α)
       (res : DeprecatedClientStreamingClient),
      (NewClientStreaming tb cli m w).1 = .ok res → res.method = m) ∧
    (∀ (tb : TransportBehavior α ρ) (cli : ClientI) (m : String) (w : World α)
       (res : DeprecatedBidirectionalStreamingClient),
      (NewBidirectionalStreaming tb cli m w).1 = .ok res → res.method = m) ∧
    (∀ (tb : TransportBehavior α ρ) (g : GenericServiceClient) (m : String)
       (r : α) (w : World α),
      ∃ t, (NewServerStreaming tb (.generic g) m r w).2.2.st.trace =
          w.st.trace ++ t ∧
        ∀ env, StreamOp.sendMsg env ∈ t → env.Method = m) := by
  refine ⟨?_, ?_, ?_, ?_, ?_⟩
  · intro cs b st req
    obtain ⟨t, ht, henv⟩ := sendMsg_trace b st ⟨cs.method, req⟩
    exact ⟨t, ht, fun env hm => by rw [henv env hm]⟩
  · intro bs b st req
    obtain ⟨t, ht, henv⟩ := sendMsg_trace b st ⟨bs.method, req⟩
    exact ⟨t, ht, fun env hm => by rw [henv env hm]⟩
  · intro tb cli m w res h
    cases cli with
    | notGeneric => simp [NewClientStreaming] at h
    | generic g =>
      simp only [NewClientStreaming] at h
      rcases hgs : getStream tb (recordMode g m .StreamingClient) w with ⟨rs, w'⟩
      rw [hgs] at h
      cases rs with
      | error e => simp at h
      | ok u =>
        simp only [Except.ok.injEq] at h
        subst h
        rfl
  · intro tb cli m w res h
    cases cli with
    | notGeneric => simp [NewBidirectionalStreaming] at h
    | generic g =>
      simp only [NewBidirectionalStreaming] at h
      rcases hgs : getStream tb (recordMode g m .StreamingBidirectional) w
        with ⟨rs, w'⟩
      rw [hgs] at h
      cases rs with
      | error e => simp at h
      | ok u =>
        simp only [Except.ok.injEq] at h
        subst h
        rfl
  · intro tb g m r w
    rcases hgs : getStream tb (recordMode g m .StreamingServer) w with ⟨rs, w'⟩
    have hwst : w'.st = w.st := by
      rw [← getStream_st tb (recordMode g m .StreamingServer) w, hgs]
    cases rs with
    | error e =>
      refine ⟨[], ?_, fun env henv => absurd henv (List.not_mem_nil _)⟩
      simp only [NewServerStreaming, hgs]
      simp [hwst]
    | ok u =>
      obtain ⟨t1, ht1, henv1⟩ := sendMsg_trace tb.stream w'.st ⟨m, r⟩
      rcases hsm : Stream.sendMsg tb.stream w'.st ⟨m, r⟩ with ⟨se, st'⟩
      rw [hsm] at ht1
      replace ht1 : st'.trace = w'.st.trace ++ t1 := ht1
      cases se with
      | some e =>
        refine ⟨t1, ?_, fun env henv => by rw [henv1 env henv]⟩
        have hst : (NewServerStreaming tb (.generic g) m r w).2.2.st = st' := by
          simp [NewServerStreaming, hgs, hsm]
        rw [hst, ht1, hwst]
      | none =>
        obtain ⟨t2, ht2, hnos⟩ := close_trace tb.stream st'
        rcases hcl : Stream.close tb.stream st' with ⟨ce, st''⟩
        rw [hcl] at ht2
        replace ht2 : st''.trace = st'.trace ++ t2 := ht2
        have htr : st''.trace = w.st.trace ++ (t1 ++ t2) := by
          rw [ht2, ht1, hwst, List.append_assoc]
        have hmem : ∀ env, StreamOp.sendMsg env ∈ t1 ++ t2 → env.Method = m := by
          intro env henv
          rcases List.mem_append.mp henv with h1 | h2
          · rw [henv1 env h1]
          · exact absurd h2 (hnos env)
        cases ce with
        | some e =>
          refine ⟨t1 ++ t2, ?_, hmem⟩
          have hst : (NewServerStreaming tb (.generic g) m r w).2.2.st = st'' := by
            simp [NewServerStreaming, hgs, hsm, hcl]
          rw [hst, htr]
        | none =>
          refine ⟨t1 ++ t2, ?_, hmem⟩
          have hst : (NewServerStreaming tb (.generic g) m r w).2.2.st = st'' := by
            simp [NewServerStreaming, hgs, hsm, hcl]
          rw [hst, htr]

/-- A bidirectional handle value used by the C7 witness. -/
def bsEcho : DeprecatedBidirectionalStreamingClient :=
  ⟨"Echo", .plain .GenericBidirectionalStreamingMethod⟩

/-- Witness for C7 at concrete handles, factories and transport. -/
theorem c7_envelope_method_matches_witness :
    (∃ t, (csEcho.Send tbOk.stream StreamState.init 5).2.trace =
        StreamState.init.trace ++ t ∧
      ∀ env, StreamOp.sendMsg env ∈ t → env.Method = csEcho.method) ∧
    (∃ t, (bsEcho.Send tbOk.stream StreamState.init 6).2.trace =
        StreamState.init.trace ++ t ∧
      ∀ env, StreamOp.sendMsg env ∈ t → env.Method = bsEcho.method) ∧
    (⟨"Echo", .plain .GenericClientStreamingMethod⟩ :
        DeprecatedClientStreamingClient).method = "Echo" ∧
    (⟨"Echo", .plain .GenericBidirectionalStreamingMethod⟩ :
        DeprecatedBidirectionalStreamingClient).method = "Echo" ∧
    (∃ t, (NewServerStreaming tbOk (.generic gNoIDL) "Echo" (42 : Nat)
          World.init).2.2.st.trace = World.init.st.trace ++ t ∧
      ∀ env, StreamOp.sendMsg env ∈ t → env.Method = "Echo") :=
  ⟨(c7_envelope_method_matches (ρ := Nat)).1 csEcho tbOk.stream StreamState.init 5,
   (c7_envelope_method_matches (ρ := Nat)).2.1 bsEcho tbOk.stream StreamState.init 6,
   (c7_envelope_method_matches (ρ := Nat)).2.2.1 tbOk (.generic gNoIDL) "Echo"
     World.init ⟨"Echo", .plain .GenericClientStreamingMethod⟩ rfl,
   (c7_envelope_method_matches (ρ := Nat)).2.2.2.1 tbOk (.generic gNoIDL) "Echo"
     World.init ⟨"Echo", .plain .GenericBidirectionalStreamingMethod⟩ rfl,
   (c7_envelope_method_matches (ρ := Nat)).2.2.2.2 tbOk gNoIDL "Echo" 42
     World.init⟩

/-- Counterexample to C8 as stated. In
`NewStreamingClientWithServiceInfo`, the struct literal performs the
unchecked interface assertion `kc.(client.Streaming)` (stream.go line
73). When the external `client.NewClient` succeeds but hands back a
client that does not implement `client.Streaming` — a possibility the
spec itself admits for the collaborator (sections 4.2 and 7,
`UnsupportedOperation`) — construction panics instead of surfacing an
error result: the outcome is `panicked` and is no `err` value. -/
theorem c8_counterexample :
    NewStreamingClientWithServiceInfo none false false (fun _ => none) =
      .panicked :=
  rfl

/-- C8 amended: every operation on an already-constructed client is
panic-free — the three factories reject a non-generic client with the
`invalid generic client` error, and `getStream` turns an underlying
client without streaming support into the `client not support
streaming` error — but the constructor itself, over an underlying
client that does not support streaming, panics at its unchecked type
assertion rather than returning an error. -/
theorem c8_amended_no_panic_after_construction {α ρ : Type}
    (tb : TransportBehavior α ρ) (m : String) (r : α) (w : World α) :
    ((NewClientStreaming tb .notGeneric m w).1 = .error .invalidGenericClient ∧
     (NewServerStreaming tb .notGeneric m r w).1 = .error .invalidGenericClient ∧
     (NewBidirectionalStreaming tb .notGeneric m w).1 =
       .error .invalidGenericClient) ∧
    (∀ g : GenericServiceClient, g.kSupportsStreaming = false →
      getStream tb g w = (.error .clientNotSupportStreaming, w)) ∧
    (∀ (hasIDL : Bool) (getMethod : String → Option SchemaMethod),
      NewStreamingClientWithServiceInfo none false hasIDL getMethod =
        .panicked) := by
  refine ⟨⟨rfl, rfl, rfl⟩, ?_, fun _ _ => rfl⟩
  intro g hg
  simp [getStream, hg]

/-- Witness for the amended C8 at concrete inputs. -/
theorem c8_amended_no_panic_after_construction_witness :
    (NewClientStreaming tbOk .notGeneric "Echo" World.init).1 =
      .error .invalidGenericClient ∧
    getStream tbOk ⟨false, fun _ => none, some [], false⟩ World.init =
      (.error .clientNotSupportStreaming, World.init) ∧
    NewStreamingClientWithServiceInfo none false false (fun _ => none) =
      .panicked :=
  ⟨(c8_amended_no_panic_after_construction tbOk "Echo" (3 : Nat)
      World.init).1.1,
   (c8_amended_no_panic_after_construction tbOk "Echo" (3 : Nat)
      World.init).2.1 ⟨false, fun _ => none, some [], false⟩ rfl,
   (c8_amended_no_panic_after_construction tbOk "Echo" (3 : Nat)
      World.init).2.2 false (fun _ => none)⟩

/-- A transport whose stream opens succeed but whose every send
fails. -/
def tbSendFail : TransportBehavior Nat Nat :=
  ⟨fun _ => none,
   ⟨fun _ => some (.transport 3), fun _ => none, fun _ => .ok 0⟩⟩

/-- Counterexample to C9 as stated: a concrete error path on which the
acquired raw stream is never explicitly closed. With a transport whose
open succeeds and whose first send fails, `NewServerStreaming` acquires
a stream (one open call), returns the send error and no handle, and
performs zero close attempts on that stream — it is not released by an
explicit close on this path. -/
theorem c9_counterexample :
    (NewServerStreaming tbSendFail (.generic gNoIDL) "Echo" (7 : Nat)
        World.init).1 = .error (.transport 3) ∧
    (NewServerStreaming tbSendFail (.generic gNoIDL) "Echo" (7 : Nat)
        World.init).2.2.openCalls = 1 ∧
    (NewServerStreaming tbSendFail (.generic gNoIDL) "Echo" (7 : Nat)
        World.init).2.2.st.closeCalls = 0 := by
  refine ⟨rfl, rfl, rfl⟩

/-- C9 amended: on the send-failure path of server-streaming
construction the acquired raw stream is not explicitly closed at all —
the factory returns the transport error, the open counter shows the
stream was acquired, and the close-attempt counter of the stream is
unchanged. (Release there rests on the garbage-collected finalizer the
constructor installs on the client, exactly the hazard spec section 9
attributes to the original code.) -/
theorem c9_amended_error_path_leaves_stream_unclosed {α ρ : Type}
    (tb : TransportBehavior α ρ) (g : GenericServiceClient) (m : String)
    (r : α) (w : World α) (e : Err)
    (hks : g.kSupportsStreaming = true)
    (hopen : tb.openErr w.openCalls = none)
    (hsend : tb.stream.sendErr w.st.sendCalls = some e) :
    (NewServerStreaming tb (.generic g) m r w).1 = .error e ∧
    (NewServerStreaming tb (.generic g) m r w).2.2.openCalls =
      w.openCalls + 1 ∧
    (NewServerStreaming tb (.generic g) m r w).2.2.st.closeCalls =
      w.st.closeCalls := by
  have hks' : (recordMode g m .StreamingServer).kSupportsStreaming = true := by
    rw [recordMode_kSupportsStreaming, hks]
  refine ⟨?_, ?_, ?_⟩ <;>
    simp [NewServerStreaming, getStream, hks', hopen, Stream.sendMsg, hsend]

/-- Witness for the amended C9 at the concrete failing transport. -/
theorem c9_amended_error_path_leaves_stream_unclosed_witness :
    (NewServerStreaming tbSendFail (.generic gNoIDL) "Echo" (7 : Nat)
        World.init).1 = .error (.transport 3) ∧
    (NewServerStreaming tbSendFail (.generic gNoIDL) "Echo" (7 : Nat)
        World.init).2.2.openCalls = 0 + 1 ∧
    (NewServerStreaming tbSendFail (.generic gNoIDL) "Echo" (7 : Nat)
        World.init).2.2.st.closeCalls = 0 :=
  c9_amended_error_path_leaves_stream_unclosed tbSendFail gNoIDL "Echo" 7
    World.init (.transport 3) rfl rfl rfl

end KitexGeneric
